import Mathlib

/-!
Verification of the PhenoAI C++ prediction client
(src/cpp_client/phenoaiclient.hpp) against its design specification.

The client is embedded shallowly:

* JSON documents (the nlohmann json values the client manipulates) become
  the inductive type `Json`; objects are association lists of key/value
  pairs.  nlohmann stores objects in a sorted `std::map`; since the claims
  only concern lookup, insertion of a missing key, and whole-document
  equality, an association list with lookup-by-key and insertion of the
  missing key is a faithful model.
* The C++ exceptions the client can raise or propagate become the error
  type `ClientError` and functions that can throw return `Except`.
* The libcurl handle is modelled by an event trace: every `curl_easy_setopt`,
  the `curl_easy_perform` call and the `curl_easy_cleanup` call append a
  `CurlEvent`.  The outcome of the one blocking transfer (what the write
  callback accumulated into `readBuffer`, and whether `curl_easy_perform`
  returned `CURLE_OK`) is an explicit input `Transfer` to `query`.
* The filesystem seen by `predict_file` is an explicit map from paths to
  file contents (`none` = the file cannot be opened/read); a failed
  `std::ifstream` read through `istreambuf_iterator` yields the empty
  string, exactly as the C++ does.
* The nlohmann JSON text parser is third-party code, so it is kept
  abstract: a parameter `parse : String → Option Json` (`none` models a
  thrown `nlohmann::json::parse_error`).
-/

namespace PhenoAI

/-- A structured (JSON) document, as manipulated by the client via
nlohmann::json.  Numbers are modelled exactly as rationals; the claims
never depend on numeric representation. -/
inductive Json where
  | null : Json
  | bool : Bool → Json
  | num : Rat → Json
  | str : String → Json
  | arr : List Json → Json
  | obj : List (String × Json) → Json

/-- The failures the client body can raise or propagate:
`parseError` models a propagated `nlohmann::json::parse_error` (the spec's
MalformedResponseError kind), `typeError` a propagated
`nlohmann::json::type_error`, and `runtimeError` the `std::runtime_error`
thrown by `resultConstructor` (carrying only its message string). -/
inductive ClientError where
  | parseError : ClientError
  | typeError : String → ClientError
  | runtimeError : String → ClientError
  deriving DecidableEq, Repr

/-- Key lookup in a JSON object (std::map::find). -/
def objFind : List (String × Json) → String → Option Json
  | [], _ => none
  | (k, v) :: rest, key => if k = key then some v else objFind rest key

/-- nlohmann `operator[]` with a string key on a non-const json value,
as used on lines 107-109 of phenoaiclient.hpp: on `null` the value first
becomes an empty object and the key is inserted with value `null`; on an
object a missing key is likewise inserted with value `null`; on any other
kind a `type_error` is thrown.  Returns the looked-up value together with
the (possibly updated) document. -/
def bracketGet : Json → String → Except ClientError (Json × Json)
  | Json.null, key => Except.ok (Json.null, Json.obj [(key, Json.null)])
  | Json.obj kvs, key =>
      match objFind kvs key with
      | some v => Except.ok (v, Json.obj kvs)
      | none => Except.ok (Json.null, Json.obj (kvs ++ [(key, Json.null)]))
  | _, _ => Except.error (ClientError.typeError "cannot use operator[] with a string argument")

/-- Conversion of a json value to std::string (lines 108-109): throws a
`type_error` unless the value is a string. -/
def asString : Json → Except ClientError String
  | Json.str s => Except.ok s
  | _ => Except.error (ClientError.typeError "type must be string")

/-- nlohmann comparison of a json value with a string literal
(`json == const char*` promotes the literal to a json string and compares):
true exactly when the value is a string equal to the literal. -/
def eqStr : Json → String → Bool
  | Json.str s, lit => s = lit
  | _, _ => false

/-- The body of `PhenoAIClient::resultConstructor` (lines 106-113) after
parsing: reads `jsonresult["status"]` (which may mutate the document),
compares it with the string "error"; on equality reads `type` and
`message`, converts both to strings, and throws
`std::runtime_error(message + " (" + type + ")")`; otherwise returns the
document. -/
def resultConstructorDoc (jsonresult : Json) : Except ClientError Json :=
  match bracketGet jsonresult "status" with
  | Except.error e => Except.error e
  | Except.ok (status, j1) =>
    if eqStr status "error" then
      match bracketGet j1 "type" with
      | Except.error e => Except.error e
      | Except.ok (tyv, j2) =>
        match asString tyv with
        | Except.error e => Except.error e
        | Except.ok errortype =>
          match bracketGet j2 "message" with
          | Except.error e => Except.error e
          | Except.ok (msgv, _) =>
            match asString msgv with
            | Except.error e => Except.error e
            | Except.ok errormessage =>
              Except.error (ClientError.runtimeError (errormessage ++ " (" ++ errortype ++ ")"))
    else
      Except.ok j1

/-- `PhenoAIClient::resultConstructor` (lines 105-114): parse the raw
response body (a thrown `parse_error` propagates to the caller, nothing
is caught), then interpret the document. -/
def resultConstructor (parse : String → Option Json) (result : String) :
    Except ClientError Json :=
  match parse result with
  | none => Except.error ClientError.parseError
  | some j => resultConstructorDoc j

/-- One observable step against the libcurl handle inside `query`
(lines 83-98): the `curl_easy_setopt` calls, the single
`curl_easy_perform`, the failure log, and `curl_easy_cleanup`. -/
inductive CurlEvent where
  | setUrl : String → CurlEvent
  | setPort : Int → CurlEvent
  | setWriteFunction : CurlEvent
  | setWriteData : CurlEvent
  | setPostFields : String → CurlEvent
  | perform : CurlEvent
  | logFailure : CurlEvent
  | cleanup : CurlEvent
  deriving DecidableEq, Repr

/-- Outcome of the one blocking transfer issued by `curl_easy_perform`:
what the write callback appended into `readBuffer` during the transfer
(possibly an empty or partial body), and whether the call returned
`CURLE_OK`. -/
structure Transfer where
  accumulated : String
  ok : Bool
  deriving DecidableEq, Repr

/-- The client's fields (lines 13-15): `_server_ip`, `_server_port`, and
whether the `_curl` handle is non-null. -/
structure ClientState where
  server_ip : String
  server_port : Int
  curl : Bool
  deriving DecidableEq, Repr

/-- `PhenoAIClient::get_server_ip` (line 30). -/
def get_server_ip (c : ClientState) : String := c.server_ip

/-- `PhenoAIClient::get_server_port` (line 31). -/
def get_server_port (c : ClientState) : Int := c.server_port

/-- `PhenoAIClient::set_server_ip` (line 32): stores the string as given. -/
def set_server_ip (c : ClientState) (ip : String) : ClientState :=
  { c with server_ip := ip }

/-- `PhenoAIClient::set_server_port` (line 33): stores the port as given. -/
def set_server_port (c : ClientState) (port : Int) : ClientState :=
  { c with server_port := port }

/-- The POST body built on lines 71-72:
`"get_results_as_string=1&mode="+mode+"&data="+data+"&mapping="+mapping_str+""`
with `mapping_str = mapping ? "1" : "0"`. -/
def postBody (mode data : String) (mapping : Bool) : String :=
  let mapping_str := if mapping then "1" else "0"
  "get_results_as_string=1&mode=" ++ mode ++ "&data=" ++ data ++ "&mapping=" ++ mapping_str ++ ""

/-- `PhenoAIClient::query` (lines 69-102).  Builds the POST body; if the
handle exists, sets the URL to `_server_ip`, the port to `_server_port`,
the write callback and its sink, and the POST fields; performs the one
transfer (whose outcome is the explicit input `net`); on a non-OK result
code only logs; always cleans up the handle; and returns whatever the
write callback accumulated in `readBuffer` — also on failure.  The
returned pair is (readBuffer, trace of handle operations). -/
def query (c : ClientState) (net : Transfer) (mode data : String) (mapping : Bool) :
    String × List CurlEvent :=
  let poststring := postBody mode data mapping
  if c.curl then
    let readBuffer := net.accumulated
    let events :=
      [CurlEvent.setUrl c.server_ip, CurlEvent.setPort c.server_port,
       CurlEvent.setWriteFunction, CurlEvent.setWriteData,
       CurlEvent.setPostFields poststring, CurlEvent.perform]
      ++ (if net.ok then [] else [CurlEvent.logFailure])
      ++ [CurlEvent.cleanup]
    (readBuffer, events)
  else
    ("", [])

/-- One iteration of the loop on lines 39-46: append a comma unless the
accumulator still equals "[", then append the rendering of the element. -/
def buildStep (datalist : String) (piece : String) : String :=
  (if datalist ≠ "[" then datalist ++ "," else datalist) ++ piece

/-- The data-list encoding of `predict_values` (lines 38-47): start from
"[", run the loop `for(int i=0; i<nParameters; ++i)` over the renderings
`data i` of the array elements (the text `std::ostringstream << data[i]`
produces), and append "]".  `data : Nat → String` gives the rendering of
each array element, keeping the C++ floating-point formatting abstract. -/
def buildDatalist (data : Nat → String) (nParameters : Int) : String :=
  ((List.range nParameters.toNat).map data).foldl buildStep "[" ++ "]"

/-- `PhenoAIClient::predict_values` (lines 36-54): encode the array as a
list literal, query the server with mode "values", and run the result
constructor on the raw body. -/
def predict_values (c : ClientState) (net : Transfer) (parse : String → Option Json)
    (data : Nat → String) (nParameters : Int) (mapping : Bool) :
    Except ClientError Json × List CurlEvent :=
  let datalist := buildDatalist data nParameters
  let qr := query c net "values" datalist mapping
  (resultConstructor parse qr.1, qr.2)

/-- The file read on lines 57-59: `std::ifstream` plus
`istreambuf_iterator`.  When the path cannot be opened or read the stream
is in a failed state and the iterator range is empty, so `content` is the
empty string — no error is raised.  `fs` maps each path to its contents,
`none` meaning the path cannot be opened/read. -/
def readFileContent (fs : String → Option String) (filepath : String) : String :=
  match fs filepath with
  | some content => content
  | none => ""

/-- `PhenoAIClient::predict_file` (lines 55-65): read the file contents,
query the server with mode "file" and the contents as data, and run the
result constructor on the raw body. -/
def predict_file (c : ClientState) (net : Transfer) (parse : String → Option Json)
    (fs : String → Option String) (filepath : String) (mapping : Bool) :
    Except ClientError Json × List CurlEvent :=
  let content := readFileContent fs filepath
  let qr := query c net "file" content mapping
  (resultConstructor parse qr.1, qr.2)

/-- The data encoding exactly as the specification words it: the
renderings of the values in order, separated by commas, enclosed in
square brackets. -/
def specDatalist (renders : List String) : String :=
  "[" ++ String.intercalate "," renders ++ "]"

/-- Helper for reasoning about comma-separated concatenation: the tail of
a comma-separated rendering, one leading comma per element. -/
def commaTail : List String → String
  | [] => ""
  | r :: rs => "," ++ r ++ commaTail rs

/-! ## Helper lemmas -/

lemma one_le_length_of_ne (s : String) (h : s ≠ "") : 1 ≤ s.length := by
  cases s with
  | mk l =>
    cases l with
    | nil => exact absurd rfl h
    | cons a as =>
        show 1 ≤ (a :: as).length
        simp

lemma ne_bracket_of_two_le (acc : String) (h : 2 ≤ acc.length) : acc ≠ "[" := by
  intro contra
  rw [contra] at h
  exact absurd h (by decide)

lemma intercalate_go_comma (rs : List String) :
    ∀ acc : String, String.intercalate.go acc "," rs = acc ++ commaTail rs := by
  induction rs with
  | nil => intro acc; simp [String.intercalate.go, commaTail]
  | cons r rs ih =>
      intro acc
      rw [String.intercalate.go, ih, commaTail]
      simp [String.append_assoc]

lemma intercalate_comma_cons (r : String) (rs : List String) :
    String.intercalate "," (r :: rs) = r ++ commaTail rs := by
  rw [String.intercalate, intercalate_go_comma]

lemma foldl_buildStep_of_two_le (rs : List String) :
    ∀ acc : String, 2 ≤ acc.length → rs.foldl buildStep acc = acc ++ commaTail rs := by
  induction rs with
  | nil => intro acc _; simp [commaTail]
  | cons r rs ih =>
      intro acc h
      have hne : acc ≠ "[" := ne_bracket_of_two_le acc h
      have hstep : buildStep acc r = acc ++ "," ++ r := by
        simp [buildStep, hne]
      have hlen : 2 ≤ (acc ++ "," ++ r).length := by
        simp [String.length_append]
        omega
      rw [List.foldl_cons, hstep, ih (acc ++ "," ++ r) hlen, commaTail]
      simp [String.append_assoc]

lemma buildDatalist_spec_of_ne (rs : List String) (hne : ∀ r ∈ rs, r ≠ "") :
    rs.foldl buildStep "[" ++ "]" = specDatalist rs := by
  cases rs with
  | nil => rfl
  | cons r rs =>
      have hr : r ≠ "" := hne r (by simp)
      have h1 : buildStep "[" r = "[" ++ r := by simp [buildStep]
      have hlen : 2 ≤ ("[" ++ r).length := by
        have h1r := one_le_length_of_ne r hr
        have hb : ("[" : String).length = 1 := rfl
        simp [String.length_append, hb]
        omega
      rw [List.foldl_cons, h1, foldl_buildStep_of_two_le rs ("[" ++ r) hlen,
        specDatalist, intercalate_comma_cons]
      simp [String.append_assoc]

/-! ## Claim theorems -/

/-- Claim C1 (code bug): when the transfer fails (`curl_easy_perform`
returns a non-OK code, nothing accumulated), `query` does not raise any
error: it merely logs the failure and returns the empty accumulated
buffer as if it were the response body, and `predict_values` then feeds
that empty buffer straight into the result decoder (here surfacing as a
parse error of the empty string — not as a transfer error). -/
theorem query_failed_transfer_returns_buffer :
    query ⟨"127.0.0.1", 8081, true⟩ ⟨"", false⟩ "values" "[1.5,0,1]" true
      = ("", [CurlEvent.setUrl "127.0.0.1", CurlEvent.setPort 8081,
         CurlEvent.setWriteFunction, CurlEvent.setWriteData,
         CurlEvent.setPostFields
           "get_results_as_string=1&mode=values&data=[1.5,0,1]&mapping=1",
         CurlEvent.perform, CurlEvent.logFailure, CurlEvent.cleanup]) ∧
    (predict_values ⟨"127.0.0.1", 8081, true⟩ ⟨"", false⟩ (fun _ => none)
        (fun _ => "") 0 true).1 = Except.error ClientError.parseError :=
  ⟨rfl, rfl⟩

/-- Claim C2 (code bug): on a path that cannot be opened or read the
client produces the empty content string and still performs the network
transfer, sending an empty `data` field — no FileReadError exists in the
code and nothing is raised before the transfer. -/
theorem predict_file_unreadable_sends_empty_data :
    readFileContent (fun _ => none) "/no/such/file" = "" ∧
    (predict_file ⟨"127.0.0.1", 8081, true⟩ ⟨"resp", true⟩ (fun _ => some Json.null)
        (fun _ => none) "/no/such/file" true).2
      = [CurlEvent.setUrl "127.0.0.1", CurlEvent.setPort 8081,
         CurlEvent.setWriteFunction, CurlEvent.setWriteData,
         CurlEvent.setPostFields "get_results_as_string=1&mode=file&data=&mapping=1",
         CurlEvent.perform, CurlEvent.cleanup] :=
  ⟨rfl, rfl⟩

/-- Claim C3 (code bug): on the error document
`status:"error", type:"InputError", message:"bad shape"` both entry
points do fail and never return a result, but the raised error is a
`std::runtime_error` carrying only the concatenated diagnostic string
"bad shape (InputError)" — the type and message are not exposed to the
caller as separate structured fields. -/
theorem error_response_raises_concatenated_string_only :
    (predict_values ⟨"127.0.0.1", 8081, true⟩ ⟨"errbody", true⟩
        (fun s => if s = "errbody" then
          some (Json.obj [("status", Json.str "error"), ("type", Json.str "InputError"),
            ("message", Json.str "bad shape")]) else none)
        (fun _ => "") 0 true).1
      = Except.error (ClientError.runtimeError "bad shape (InputError)") ∧
    (predict_file ⟨"127.0.0.1", 8081, true⟩ ⟨"errbody", true⟩
        (fun s => if s = "errbody" then
          some (Json.obj [("status", Json.str "error"), ("type", Json.str "InputError"),
            ("message", Json.str "bad shape")]) else none)
        (fun _ => some "1.5") "/data.txt" true).1
      = Except.error (ClientError.runtimeError "bad shape (InputError)") :=
  ⟨rfl, rfl⟩

/-- Claim C4 (counterexample): a parsed document with no `status` field is
NOT returned unmodified — reading `jsonresult["status"]` inserts a null
`status` member into the document before it is returned. -/
theorem missing_status_document_returned_modified :
    resultConstructorDoc (Json.obj [("prediction", Json.num 1)])
      = Except.ok (Json.obj [("prediction", Json.num 1), ("status", Json.null)]) ∧
    Json.obj [("prediction", Json.num 1), ("status", Json.null)]
      ≠ Json.obj [("prediction", Json.num 1)] :=
  ⟨rfl, by simp⟩

/-- Claim C4 (amended): for every response body that parses to a JSON
object which CONTAINS a `status` field whose value is not the string
"error", the decoder returns that entire document exactly as parsed,
with no modification. -/
theorem status_non_error_document_returned_unmodified
    (kvs : List (String × Json)) (v : Json)
    (hfind : objFind kvs "status" = some v) (hne : eqStr v "error" = false) :
    resultConstructorDoc (Json.obj kvs) = Except.ok (Json.obj kvs) := by
  simp [resultConstructorDoc, bracketGet, hfind, hne]

/-- Witness for the amended Claim C4 at the spec's own success example
`status:"ok", prediction:[0.1,0.2]`. -/
theorem status_non_error_document_returned_unmodified_witness :
    objFind [("status", Json.str "ok"),
      ("prediction", Json.arr [Json.num (1/10), Json.num (1/5)])] "status"
      = some (Json.str "ok") ∧
    eqStr (Json.str "ok") "error" = false ∧
    resultConstructorDoc (Json.obj [("status", Json.str "ok"),
        ("prediction", Json.arr [Json.num (1/10), Json.num (1/5)])])
      = Except.ok (Json.obj [("status", Json.str "ok"),
        ("prediction", Json.arr [Json.num (1/10), Json.num (1/5)])]) :=
  ⟨rfl, rfl, status_non_error_document_returned_unmodified _ _ rfl rfl⟩

/-- Claim C5: for every mode, data and mapping flag, the body handed to
CURLOPT_POSTFIELDS is exactly the concatenation
`get_results_as_string=1&mode=<mode>&data=<data>&mapping=<m>`, and
`<m>` is "1" exactly when the mapping flag is true (else "0"). -/
theorem query_post_body_exact (c : ClientState) (net : Transfer)
    (mode data : String) (mapping : Bool) (hcurl : c.curl = true) :
    CurlEvent.setPostFields ("get_results_as_string=1&mode=" ++ mode ++ "&data="
        ++ data ++ "&mapping=" ++ (if mapping then "1" else "0"))
      ∈ (query c net mode data mapping).2 ∧
    ((if mapping then "1" else "0") = "1" ↔ mapping = true) := by
  constructor
  · simp [query, hcurl, postBody]
  · cases mapping <;> simp

/-- Witness for Claim C5 at concrete inputs. -/
theorem query_post_body_exact_witness :
    CurlEvent.setPostFields ("get_results_as_string=1&mode=" ++ "values" ++ "&data="
        ++ "[1.5]" ++ "&mapping=" ++ (if false then "1" else "0"))
      ∈ (query ⟨"127.0.0.1", 8081, true⟩ ⟨"resp", true⟩ "values" "[1.5]" false).2 ∧
    ((if false then "1" else "0") = "1" ↔ false = true) :=
  query_post_body_exact ⟨"127.0.0.1", 8081, true⟩ ⟨"resp", true⟩ "values" "[1.5]" false rfl

/-- Claim C7: whenever parsing the response body fails, the result
decoder fails (the parse error propagates to the caller) instead of
returning a result. -/
theorem parse_failure_propagates (parse : String → Option Json) (s : String)
    (h : parse s = none) :
    resultConstructor parse s = Except.error ClientError.parseError := by
  simp [resultConstructor, h]

/-- Witness for Claim C7: a parser rejecting every body, applied to a
non-document string. -/
theorem parse_failure_propagates_witness :
    resultConstructor (fun _ => none) "not a document"
      = Except.error ClientError.parseError :=
  parse_failure_propagates (fun _ => none) "not a document" rfl

/-- Claim C8: whenever a transfer is attempted (the handle exists), the
event trace of `query` ends with the handle cleanup, after the perform —
in both the success and the failure outcome. -/
theorem handle_released_after_transfer (c : ClientState) (net : Transfer)
    (mode data : String) (mapping : Bool) (hcurl : c.curl = true) :
    ∃ pre, (query c net mode data mapping).2 = pre ++ [CurlEvent.cleanup]
      ∧ CurlEvent.perform ∈ pre := by
  cases hok : net.ok
  · exact ⟨[CurlEvent.setUrl c.server_ip, CurlEvent.setPort c.server_port,
      CurlEvent.setWriteFunction, CurlEvent.setWriteData,
      CurlEvent.setPostFields (postBody mode data mapping), CurlEvent.perform,
      CurlEvent.logFailure], by simp [query, hcurl, hok], by simp⟩
  · exact ⟨[CurlEvent.setUrl c.server_ip, CurlEvent.setPort c.server_port,
      CurlEvent.setWriteFunction, CurlEvent.setWriteData,
      CurlEvent.setPostFields (postBody mode data mapping), CurlEvent.perform],
      by simp [query, hcurl, hok], by simp⟩

/-- Witness for Claim C8 at a concrete failing transfer. -/
theorem handle_released_after_transfer_witness :
    ∃ pre, (query ⟨"127.0.0.1", 8081, true⟩ ⟨"", false⟩ "values" "[]" true).2
      = pre ++ [CurlEvent.cleanup] ∧ CurlEvent.perform ∈ pre :=
  handle_released_after_transfer ⟨"127.0.0.1", 8081, true⟩ ⟨"", false⟩ "values" "[]" true rfl

/-- Claim C9: the setters store the given host string and port integer
unchanged (the getters return them exactly), and a subsequent query sets
precisely these stored values as the transfer destination. -/
theorem setters_store_exactly_and_query_uses_them (c : ClientState)
    (s : String) (p : Int) (net : Transfer) (mode data : String) (mapping : Bool)
    (hcurl : c.curl = true) :
    get_server_ip (set_server_port (set_server_ip c s) p) = s ∧
    get_server_port (set_server_port (set_server_ip c s) p) = p ∧
    CurlEvent.setUrl s
      ∈ (query (set_server_port (set_server_ip c s) p) net mode data mapping).2 ∧
    CurlEvent.setPort p
      ∈ (query (set_server_port (set_server_ip c s) p) net mode data mapping).2 := by
  refine ⟨rfl, rfl, ?_, ?_⟩ <;>
    simp [query, set_server_ip, set_server_port, hcurl]

/-- Witness for Claim C9 at concrete inputs. -/
theorem setters_store_exactly_and_query_uses_them_witness :
    get_server_ip (set_server_port (set_server_ip ⟨"0.0.0.0", 1, true⟩ "10.0.0.7") 9999)
      = "10.0.0.7" ∧
    get_server_port (set_server_port (set_server_ip ⟨"0.0.0.0", 1, true⟩ "10.0.0.7") 9999)
      = 9999 ∧
    CurlEvent.setUrl "10.0.0.7"
      ∈ (query (set_server_port (set_server_ip ⟨"0.0.0.0", 1, true⟩ "10.0.0.7") 9999)
          ⟨"resp", true⟩ "file" "abc" false).2 ∧
    CurlEvent.setPort 9999
      ∈ (query (set_server_port (set_server_ip ⟨"0.0.0.0", 1, true⟩ "10.0.0.7") 9999)
          ⟨"resp", true⟩ "file" "abc" false).2 :=
  setters_store_exactly_and_query_uses_them ⟨"0.0.0.0", 1, true⟩ "10.0.0.7" 9999
    ⟨"resp", true⟩ "file" "abc" false rfl

/-- Claim C6: for every sequence of values whose renderings are nonempty
(the C++ stream rendering of a float is never the empty string),
`predict_values` encodes the data field as the bracketed comma-separated
list of the renderings in order; for count 0 the encoding is exactly
"[]"; and the request is sent with mode "values". -/
theorem predict_values_encodes_bracketed_list (c : ClientState) (net : Transfer)
    (parse : String → Option Json) (data : Nat → String) (n : Int) (mapping : Bool)
    (hcurl : c.curl = true) (hne : ∀ i, i < n.toNat → data i ≠ "") :
    buildDatalist data n = specDatalist ((List.range n.toNat).map data) ∧
    buildDatalist data 0 = "[]" ∧
    CurlEvent.setPostFields (postBody "values" (buildDatalist data n) mapping)
      ∈ (predict_values c net parse data n mapping).2 := by
  refine ⟨?_, rfl, ?_⟩
  · exact buildDatalist_spec_of_ne _ (by
      intro r hr
      rcases List.mem_map.mp hr with ⟨i, hi, rfl⟩
      exact hne i (List.mem_range.mp hi))
  · simp [predict_values, query, hcurl]

/-- Witness for Claim C6: two elements both rendered as "7". -/
theorem predict_values_encodes_bracketed_list_witness :
    buildDatalist (fun _ => "7") 2
      = specDatalist ((List.range (2 : Int).toNat).map (fun _ => "7")) ∧
    buildDatalist (fun _ => "7") 0 = "[]" ∧
    CurlEvent.setPostFields (postBody "values" (buildDatalist (fun _ => "7") 2) true)
      ∈ (predict_values ⟨"127.0.0.1", 8081, true⟩ ⟨"resp", true⟩ (fun _ => none)
          (fun _ => "7") 2 true).2 :=
  predict_values_encodes_bracketed_list ⟨"127.0.0.1", 8081, true⟩ ⟨"resp", true⟩
    (fun _ => none) (fun _ => "7") 2 true rfl (fun _ _ => by simp)

/-- Claim C10: for every count less than or equal to zero the encoded
data field is exactly "[]", no element of the input array is read (the
whole call result is independent of the array), and the call behaves
identically to a call with an empty sequence. -/
theorem nonpositive_count_encodes_empty_list (data data2 : Nat → String) (n : Int)
    (c : ClientState) (net : Transfer) (parse : String → Option Json) (mapping : Bool)
    (h : n ≤ 0) :
    buildDatalist data n = "[]" ∧
    predict_values c net parse data n mapping
      = predict_values c net parse data2 0 mapping := by
  have h0 : n.toNat = 0 := Int.toNat_eq_zero.mpr h
  have h1 : buildDatalist data n = "[]" := by
    simp only [buildDatalist, h0]
    rfl
  have h2 : buildDatalist data2 0 = "[]" := rfl
  exact ⟨h1, by simp only [predict_values, h1, h2]⟩

/-- Witness for Claim C10 at count -2, with two different arrays. -/
theorem nonpositive_count_encodes_empty_list_witness :
    buildDatalist (fun i => toString i) (-2) = "[]" ∧
    predict_values ⟨"127.0.0.1", 8081, true⟩ ⟨"resp", true⟩ (fun _ => none)
        (fun i => toString i) (-2) true
      = predict_values ⟨"127.0.0.1", 8081, true⟩ ⟨"resp", true⟩ (fun _ => none)
        (fun _ => "x") 0 true :=
  nonpositive_count_encodes_empty_list (fun i => toString i) (fun _ => "x") (-2)
    ⟨"127.0.0.1", 8081, true⟩ ⟨"resp", true⟩ (fun _ => none) true (by decide)

end PhenoAI
